import Mathlib

/-
Verification of the psychrometric property-resolution engine of the
DesiGators repository, file src/psychrometric_chart.py (the current
version, the one importing InvalidParamsException).

The engine is embedded shallowly over the real numbers:

* Python floats become elements of ℝ (real division is Lean's total
  division; no claim below depends on division by zero).
* The attribute dictionary of the class PsychrometricProperties becomes a
  record of `Option ℝ` fields.  The attribute partial_pressure_vapor is
  named `p_vapor` here; everything else keeps its source name.
* Raised exceptions become `Except` errors.  `EngineFailure.pointNotDefined`
  is PointNotDefinedException (the specification's InsufficientData),
  `EngineFailure.invalidParams` is InvalidParamsException (the
  specification's InvalidInput), and `EngineFailure.valueError` is Python's
  ValueError (raised by find_relative_humidity,
  find_humidity_ratio_from_RH_temp, math.sqrt on a negative argument and
  the root selection of find_humidity_ratio_from_enthalpy_specific_vol).
* The unbounded `while` loops of the three gradient-descent solvers become
  fuel-indexed iteration (`solveGo`); the value `none` means the loop has
  not returned within the given fuel.  A Python run of a solver returning r
  corresponds to `∃ n, solveGo step n 50 = some r`, and a diverging run to
  `∀ n, solveGo step n 50 = none`.  There is no iteration cap in the
  source, and the repository defines no convergence-failure exception.
-/

/-- Failure kinds the engine can raise.  `pointNotDefined` models
PointNotDefinedException, `invalidParams` models InvalidParamsException
(imported by psychrometric_chart.py; its trivial class body is absent from
the snapshot of exceptions.py), `valueError` models Python's ValueError. -/
inductive EngineFailure where
  | pointNotDefined : EngineFailure
  | invalidParams : EngineFailure
  | valueError : EngineFailure
deriving DecidableEq

/-- The nine psychrometric properties plus total pressure, each optional,
exactly as held by the Python class `PsychrometricProperties`.  The field
`p_vapor` models the source attribute for the vapor pressure of water
(partial_pressure_vapor).  The write-only `density` attribute is never
read by the engine and is omitted. -/
structure PsychrometricProperties where
  dry_bulb_temperature : Option ℝ
  wet_bulb_temperature : Option ℝ
  dew_point_temperature : Option ℝ
  total_pressure : Option ℝ
  humidity_ratio : Option ℝ
  relative_humidity : Option ℝ
  total_enthalpy : Option ℝ
  p_vapor : Option ℝ
  specific_volume : Option ℝ
  specific_heat_capacity : Option ℝ

/-- Python's `sum(x is not None for x in ...)` counts booleans as integers. -/
def boolInt (b : Bool) : Int := if b then 1 else 0

/-- The number the method check_definable compares against 2: the count of
supplied properties, minus one if wet bulb temperature and total enthalpy
are both supplied, minus the count of supplied members of the humidity
ratio equivalence group beyond the first (the source writes the clamp of
the redundancy count as `if num_redundancies == -1: num_redundancies = 0`). -/
def code_independent_facts (s : PsychrometricProperties) : Int :=
  let num0 : Int :=
    boolInt s.dry_bulb_temperature.isSome + boolInt s.wet_bulb_temperature.isSome +
    boolInt s.dew_point_temperature.isSome + boolInt s.humidity_ratio.isSome +
    boolInt s.relative_humidity.isSome + boolInt s.total_enthalpy.isSome +
    boolInt s.p_vapor.isSome + boolInt s.specific_volume.isSome +
    boolInt s.specific_heat_capacity.isSome
  let num1 : Int :=
    if s.wet_bulb_temperature.isSome && s.total_enthalpy.isSome then num0 - 1 else num0
  let red0 : Int :=
    boolInt s.humidity_ratio.isSome + boolInt s.p_vapor.isSome +
    boolInt s.dew_point_temperature.isSome + boolInt s.specific_heat_capacity.isSome - 1
  let red : Int := if red0 = -1 then 0 else red0
  num1 - red

/-- The method PsychrometricProperties.check_definable: criterion 1 is the
presence of total pressure, criterion 2 is `code_independent_facts ≥ 2`. -/
def check_definable (s : PsychrometricProperties) : Bool :=
  s.total_pressure.isSome && decide (2 ≤ code_independent_facts s)

/-- Modelled from the claim's words, for comparison with the source's
counting: the number of distinct independent facts among the nine supplied
properties, where the equivalence group {humidity_ratio, p_vapor,
dew_point_temperature, specific_heat_capacity} counts as one fact
regardless of how many members are supplied, and a supplied
{total_enthalpy, wet_bulb_temperature} pair likewise counts as one fact. -/
def spec_independent_facts (s : PsychrometricProperties) : Int :=
  boolInt s.dry_bulb_temperature.isSome + boolInt s.relative_humidity.isSome +
  boolInt s.specific_volume.isSome +
  (if s.humidity_ratio.isSome || s.p_vapor.isSome || s.dew_point_temperature.isSome ||
      s.specific_heat_capacity.isSome then 1 else 0) +
  (if s.wet_bulb_temperature.isSome && s.total_enthalpy.isSome then 1
   else boolInt s.wet_bulb_temperature.isSome + boolInt s.total_enthalpy.isSome)

noncomputable section

/-- find_p_saturation: saturation vapor pressure of water [Pa] at a
temperature given in Celsius. -/
def find_p_saturation (air_temp : ℝ) : ℝ :=
  Real.exp (34.494 - 4924.99 / (air_temp + 237.1)) / (air_temp + 105) ^ (1.57 : ℝ)

/-- deriv_p_saturation: the source's closed-form derivative of
find_p_saturation. -/
def deriv_p_saturation (T : ℝ) : ℝ :=
  ((T + 105) ^ (1.57 : ℝ) * Real.exp (34.494 - 4924.99 / (T + 237.1)) * 4924.99 /
      (T + 237.1) ^ 2 -
    Real.exp (34.494 - 4924.99 / (T + 237.1)) * 1.57 * (T + 105) ^ (0.57 : ℝ)) /
  (T + 105) ^ (3.14 : ℝ)

/-- find_humidity_ratio: humidity ratio from vapor pressure and total
pressure. -/
def find_humidity_ratio (p_vapor : ℝ) (p_total : ℝ) : ℝ :=
  18.02 / 28.97 * p_vapor / (p_total - p_vapor)

/-- find_saturation_humidity_ratio. -/
def find_saturation_humidity_ratio (air_temp : ℝ) (p_total : ℝ) : ℝ :=
  find_humidity_ratio (find_p_saturation air_temp) p_total

/-- deriv_h_sat: derivative of the saturation humidity ratio. -/
def deriv_h_sat (T : ℝ) (P_tot : ℝ) : ℝ :=
  18.02 / 28.97 * P_tot * deriv_p_saturation T / (P_tot - find_p_saturation T) ^ 2

/-- find_total_enthalpy. -/
def find_total_enthalpy (air_temp : ℝ) (humidity_ratio : ℝ) : ℝ :=
  (1.005 + 1.88 * humidity_ratio) * air_temp + 2501.4 * humidity_ratio

/-- find_humidity_ratio_from_RH_temp: raises ValueError when the relative
humidity lies outside [0, 1]. -/
def find_humidity_ratio_from_RH_temp (relative_humidity air_temp p_total : ℝ) :
    Except EngineFailure ℝ :=
  if relative_humidity > 1 ∨ relative_humidity < 0 then
    Except.error EngineFailure.valueError
  else
    Except.ok (find_humidity_ratio (relative_humidity * find_p_saturation air_temp) p_total)

/-- find_humidity_ratio_from_enthalpy_db. -/
def find_humidity_ratio_from_enthalpy_db (air_temp enthalpy : ℝ) : ℝ :=
  (enthalpy - 1.005 * air_temp) / (1.88 * air_temp + 2501.4)

/-- find_p_water_vapor_from_humidity_ratio. -/
def find_p_water_vapor_from_humidity_ratio (humidity_ratio p_total : ℝ) : ℝ :=
  28.97 * humidity_ratio * p_total / (18.02 + 28.97 * humidity_ratio)

/-- find_relative_humidity: raises ValueError when the computed relative
humidity exceeds 1. -/
def find_relative_humidity (p_vapor air_temp : ℝ) : Except EngineFailure ℝ :=
  if p_vapor / find_p_saturation air_temp > 1 then Except.error EngineFailure.valueError
  else Except.ok (p_vapor / find_p_saturation air_temp)

/-- find_p_water_vapor_from_dew_point. -/
def find_p_water_vapor_from_dew_point (dew_point_temperature : ℝ) : ℝ :=
  find_p_saturation dew_point_temperature

/-- find_humidity_ratio_from_cp. -/
def find_humidity_ratio_from_cp (specific_heat_capacity : ℝ) : ℝ :=
  (specific_heat_capacity - 1.005) / 1.88

/-- find_specific_heat. -/
def find_specific_heat (humidity_ratio : ℝ) : ℝ := 1.005 + 1.88 * humidity_ratio

/-- find_specific_volume (R_dry_air = 287.052874, R_water_vapor = 461.520). -/
def find_specific_volume (humidity_ratio air_temp total_pressure : ℝ) : ℝ :=
  (287.052874 / total_pressure + 461.520 / total_pressure * humidity_ratio) *
    (air_temp + 273.15)

/-- find_humidity_ratio_from_specific_vol_and_temp. -/
def find_humidity_ratio_from_specific_vol_and_temp
    (specific_volume air_temp total_pressure : ℝ) : ℝ :=
  (specific_volume / (air_temp + 273.15) - 287.052874 / total_pressure) /
    (461.520 / total_pressure)

/-- find_dry_bulb_temperature: the enthalpy equation solved for
temperature. -/
def find_dry_bulb_temperature (enthalpy humidity_ratio : ℝ) : ℝ :=
  (enthalpy - 2501.4 * humidity_ratio) / (1.005 + 1.88 * humidity_ratio)

/-- find_dry_bulb_temperature_specific_vol_H. -/
def find_dry_bulb_temperature_specific_vol_H
    (specific_vol humidity_ratio p_total : ℝ) : ℝ :=
  specific_vol * p_total / (287.052874 + 461.520 * humidity_ratio) - 273.15

/-- t_dew_point_step: one gradient-descent step of the dew point solver,
with the gradient written out literally as in the source. -/
def t_dew_point_step (t_prev p_vapor : ℝ) : ℝ :=
  let difference_squared := (find_p_saturation t_prev - p_vapor) ^ 2
  let gradient :=
    ((9849.88 * Real.exp (68.998 - 9849.88 / (t_prev + 237.1)) *
          (t_prev + 105) ^ (3.14 : ℝ)) / (t_prev + 237.1) ^ 2 -
        3.14 * Real.exp (68.998 - 9849.88 / (t_prev + 237.1)) *
          (t_prev + 105) ^ (2.14 : ℝ)) / (t_prev + 105) ^ (6.28 : ℝ) -
      2 * p_vapor *
        ((4924.99 * Real.exp (34.494 - 4924.99 / (t_prev + 237.1)) *
            (t_prev + 105) ^ (1.57 : ℝ)) / (t_prev + 237.1) ^ 2 -
          1.57 * Real.exp (34.494 - 4924.99 / (t_prev + 237.1)) *
            (t_prev + 105) ^ (0.57 : ℝ)) / (t_prev + 105) ^ (3.14 : ℝ)
  t_prev - difference_squared / gradient

/-- t_dry_bulb_step: one gradient-descent step of the dry bulb solver. -/
def t_dry_bulb_step (t_prev relative_humidity total_enthalpy total_pressure : ℝ) : ℝ :=
  let difference_squared :=
    (1.005 * t_prev +
        (1.88 * t_prev + 2501.4) * relative_humidity * find_p_saturation t_prev /
          (total_pressure - relative_humidity * find_p_saturation t_prev) -
        total_enthalpy) ^ 2
  let gradient :=
    2 * (1.005 * t_prev +
          (1.88 * t_prev + 2501.4) * relative_humidity * find_p_saturation t_prev /
            (total_pressure - relative_humidity * find_p_saturation t_prev) -
          total_enthalpy) *
      (1.005 +
        (1.88 * t_prev + 2501.4) * relative_humidity * total_pressure *
            deriv_p_saturation t_prev /
          (total_pressure - relative_humidity * find_p_saturation t_prev) ^ 2 +
        1.88 * relative_humidity * find_p_saturation t_prev /
          (total_pressure - relative_humidity * find_p_saturation t_prev))
  t_prev - difference_squared / gradient

/-- t_wet_bulb_step: one gradient-descent step of the wet bulb solver. -/
def t_wet_bulb_step (t_prev enthalpy total_pressure : ℝ) : ℝ :=
  let difference_squared :=
    ((enthalpy - 2501.4 * find_saturation_humidity_ratio t_prev total_pressure) /
        (1.005 + 1.88 * find_saturation_humidity_ratio t_prev total_pressure) -
      t_prev) ^ 2
  let gradient :=
    2 * ((enthalpy - 2501.4 * find_saturation_humidity_ratio t_prev total_pressure) /
          (1.005 + 1.88 * find_saturation_humidity_ratio t_prev total_pressure) -
        t_prev) *
      (-(2513.907 + 1.88 * enthalpy) * deriv_h_sat t_prev total_pressure /
        (1.005 + 1.88 * find_saturation_humidity_ratio t_prev total_pressure) ^ 2)
  t_prev - difference_squared / gradient

/-- The shared loop of the three solvers: `while abs(t_next - trial_temp) >
10 ** (-precision): ...` with the source's default precision 5, returning
the pre-step iterate once the step size reaches the precision.  `none`
means the loop has not returned within the given fuel; the source has no
iteration cap. -/
def solveGo (step : ℝ → ℝ) : ℕ → ℝ → Option ℝ
  | 0, _ => none
  | n + 1, trial_temp =>
      if |step trial_temp - trial_temp| > (10 : ℝ) ^ (-5 : ℤ) then
        solveGo step n (step trial_temp)
      else some trial_temp

/-- find_dew_point_temperature with the default initial guess 50 and
default precision 5. -/
def find_dew_point_temperature (p_vapor : ℝ) (n : ℕ) : Option ℝ :=
  solveGo (fun t => t_dew_point_step t p_vapor) n 50

/-- find_wet_bulb_temperature with the default initial guess 50 and default
precision 5. -/
def find_wet_bulb_temperature (total_enthalpy total_pressure : ℝ) (n : ℕ) : Option ℝ :=
  solveGo (fun t => t_wet_bulb_step t total_enthalpy total_pressure) n 50

/-- find_dry_bulb_temperature_RH_enthalpy with the default initial guess 50
and default precision 5. -/
def find_dry_bulb_temperature_RH_enthalpy
    (relative_humidity total_enthalpy total_pressure : ℝ) (n : ℕ) : Option ℝ :=
  solveGo (fun t => t_dry_bulb_step t relative_humidity total_enthalpy total_pressure) n 50

/-- find_dry_bulb_temperature_RH_p_vapor: delegates to the dew point solver
at the target `p_vapor * relative_humidity` (the product, exactly as the
source computes it). -/
def find_dry_bulb_temperature_RH_p_vapor (relative_humidity p_vapor : ℝ) (n : ℕ) :
    Option ℝ :=
  find_dew_point_temperature (p_vapor * relative_humidity) n

/-- Coefficient A of the case-7 quadratic (a literal constant in the
source). -/
def quad_A : ℝ := -917445.4546

/-- Coefficient B of the case-7 quadratic. -/
def quad_B (enthalpy p_total specific_vol : ℝ) : ℝ :=
  -443931.5841 + 461.520 * enthalpy - 1.88 * p_total * specific_vol

/-- Coefficient C of the case-7 quadratic. -/
def quad_C (enthalpy p_total specific_vol : ℝ) : ℝ :=
  78800.535 + 287.052874 * enthalpy - 1.005 * p_total * specific_vol

/-- Discriminant of the case-7 quadratic. -/
def quad_disc (enthalpy specific_vol p_total : ℝ) : ℝ :=
  quad_B enthalpy p_total specific_vol ^ 2 -
    4 * quad_A * quad_C enthalpy p_total specific_vol

/-- The root `(-B + sqrt(B^2 - 4AC)) / (2A)` of the case-7 quadratic. -/
def quad_sol1 (enthalpy specific_vol p_total : ℝ) : ℝ :=
  (-quad_B enthalpy p_total specific_vol +
      Real.sqrt (quad_disc enthalpy specific_vol p_total)) / (2 * quad_A)

/-- The root `(-B - sqrt(B^2 - 4AC)) / (2A)` of the case-7 quadratic. -/
def quad_sol2 (enthalpy specific_vol p_total : ℝ) : ℝ :=
  (-quad_B enthalpy p_total specific_vol -
      Real.sqrt (quad_disc enthalpy specific_vol p_total)) / (2 * quad_A)

/-- find_humidity_ratio_from_enthalpy_specific_vol: selects the root that
is positive while the other is strictly negative; otherwise raises
ValueError ("No positive solution found."), and math.sqrt itself raises
ValueError when the discriminant is negative. -/
def find_humidity_ratio_from_enthalpy_specific_vol
    (enthalpy specific_vol p_total : ℝ) : Except EngineFailure ℝ :=
  if quad_disc enthalpy specific_vol p_total < 0 then Except.error EngineFailure.valueError
  else if quad_sol2 enthalpy specific_vol p_total < 0 ∧
      0 < quad_sol1 enthalpy specific_vol p_total then
    Except.ok (quad_sol1 enthalpy specific_vol p_total)
  else if quad_sol1 enthalpy specific_vol p_total < 0 ∧
      0 < quad_sol2 enthalpy specific_vol p_total then
    Except.ok (quad_sol2 enthalpy specific_vol p_total)
  else Except.error EngineFailure.valueError

/-- A mid-resolution outcome: `none` is a solver loop that has not yet
returned; an error carries the exception together with the mutated state
of `self` at the moment it was raised. -/
abbrev RunResult :=
  Option (Except (EngineFailure × PsychrometricProperties) PsychrometricProperties)

/-- Case reduction 1: specific heat capacity to humidity ratio. -/
def reduction_1 (s : PsychrometricProperties) : PsychrometricProperties :=
  match s.specific_heat_capacity with
  | some cp => { s with humidity_ratio := some (find_humidity_ratio_from_cp cp) }
  | none => s

/-- Case reduction 2: dew point temperature to vapor pressure. -/
def reduction_2 (s : PsychrometricProperties) : PsychrometricProperties :=
  match s.dew_point_temperature with
  | some dp => { s with p_vapor := some (find_p_water_vapor_from_dew_point dp) }
  | none => s

/-- Case reductions 3a/3b: vapor pressure to humidity ratio, or else
humidity ratio to vapor pressure. -/
def reduction_3 (P : ℝ) (s : PsychrometricProperties) : PsychrometricProperties :=
  match s.p_vapor with
  | some pv => { s with humidity_ratio := some (find_humidity_ratio pv P) }
  | none =>
    match s.humidity_ratio with
    | some w => { s with p_vapor := some (find_p_water_vapor_from_humidity_ratio w P) }
    | none => s

/-- Case reductions 4a/4b: total enthalpy to wet bulb temperature (via the
wet bulb solver), or else wet bulb temperature to total enthalpy. -/
def reduction_4 (n : ℕ) (P : ℝ) (s : PsychrometricProperties) :
    Option PsychrometricProperties :=
  match s.total_enthalpy with
  | some h =>
    match find_wet_bulb_temperature h P n with
    | some wb => some { s with wet_bulb_temperature := some wb }
    | none => none
  | none =>
    match s.wet_bulb_temperature with
    | some wb =>
        let h := find_total_enthalpy wb (find_saturation_humidity_ratio wb P)
        some { s with total_enthalpy := some h }
    | none => some s

/-- The four case reductions of define_point, in source order. -/
def apply_reductions (n : ℕ) (P : ℝ) (s : PsychrometricProperties) :
    Option PsychrometricProperties :=
  reduction_4 n P (reduction_3 P (reduction_2 (reduction_1 s)))

/-- The `if/elif` chain of define_point after the reductions: the number of
the first case whose known-pair test succeeds (0 when none does). -/
def dispatch_case (s : PsychrometricProperties) : ℕ :=
  if s.dry_bulb_temperature.isSome && s.wet_bulb_temperature.isSome then 1
  else if s.dry_bulb_temperature.isSome && s.humidity_ratio.isSome then 2
  else if s.dry_bulb_temperature.isSome && s.relative_humidity.isSome then 3
  else if s.dry_bulb_temperature.isSome && s.specific_volume.isSome then 4
  else if s.wet_bulb_temperature.isSome && s.humidity_ratio.isSome then 5
  else if s.wet_bulb_temperature.isSome && s.relative_humidity.isSome then 6
  else if s.wet_bulb_temperature.isSome && s.specific_volume.isSome then 7
  else if s.humidity_ratio.isSome && s.relative_humidity.isSome then 8
  else if s.humidity_ratio.isSome && s.total_enthalpy.isSome then 9
  else if s.humidity_ratio.isSome && s.specific_volume.isSome then 10
  else if s.relative_humidity.isSome && s.specific_volume.isSome then 11
  else 0

/-- Case 1 handler: dry bulb and wet bulb temperatures known. -/
def case_1 (P : ℝ) (n : ℕ) (s : PsychrometricProperties) : RunResult :=
  let db := s.dry_bulb_temperature.getD 0
  let w := find_humidity_ratio_from_enthalpy_db db (s.total_enthalpy.getD 0)
  let s1 := { s with humidity_ratio := some w }
  let pv := find_p_water_vapor_from_humidity_ratio w P
  let s2 := { s1 with p_vapor := some pv }
  match find_relative_humidity pv db with
  | Except.error f => some (Except.error (f, s2))
  | Except.ok rh =>
    let s3 := { s2 with relative_humidity := some rh }
    match find_dew_point_temperature pv n with
    | none => none
    | some dp =>
      let s4 := { s3 with dew_point_temperature := some dp }
      let s5 := { s4 with specific_volume := some (find_specific_volume w db P) }
      some (Except.ok { s5 with specific_heat_capacity := some (find_specific_heat w) })

/-- Case 2 handler: dry bulb temperature and humidity ratio known. -/
def case_2 (P : ℝ) (n : ℕ) (s : PsychrometricProperties) : RunResult :=
  let db := s.dry_bulb_temperature.getD 0
  let w := s.humidity_ratio.getD 0
  let h := find_total_enthalpy db w
  let s1 := { s with total_enthalpy := some h }
  match find_wet_bulb_temperature h P n with
  | none => none
  | some wb =>
    let s2 := { s1 with wet_bulb_temperature := some wb }
    let pv := s2.p_vapor.getD 0
    match find_dew_point_temperature pv n with
    | none => none
    | some dp =>
      let s3 := { s2 with dew_point_temperature := some dp }
      match find_relative_humidity pv db with
      | Except.error f => some (Except.error (f, s3))
      | Except.ok rh =>
        let s4 := { s3 with relative_humidity := some rh }
        let s5 := { s4 with specific_volume := some (find_specific_volume w db P) }
        some (Except.ok { s5 with specific_heat_capacity := some (find_specific_heat w) })

/-- Case 3 handler: dry bulb temperature and relative humidity known. -/
def case_3 (P : ℝ) (n : ℕ) (s : PsychrometricProperties) : RunResult :=
  let db := s.dry_bulb_temperature.getD 0
  let rh := s.relative_humidity.getD 0
  let pv := rh * find_p_saturation db
  let s1 := { s with p_vapor := some pv }
  match find_humidity_ratio_from_RH_temp rh db P with
  | Except.error f => some (Except.error (f, s1))
  | Except.ok w =>
    let s2 := { s1 with humidity_ratio := some w }
    match find_dew_point_temperature pv n with
    | none => none
    | some dp =>
      let s3 := { s2 with dew_point_temperature := some dp }
      let h := find_total_enthalpy db w
      let s4 := { s3 with total_enthalpy := some h }
      match find_wet_bulb_temperature h P n with
      | none => none
      | some wb =>
        let s5 := { s4 with wet_bulb_temperature := some wb }
        let s6 := { s5 with specific_volume := some (find_specific_volume w db P) }
        some (Except.ok { s6 with specific_heat_capacity := some (find_specific_heat w) })

/-- Case 4 handler: dry bulb temperature and specific volume known. -/
def case_4 (P : ℝ) (n : ℕ) (s : PsychrometricProperties) : RunResult :=
  let db := s.dry_bulb_temperature.getD 0
  let w := find_humidity_ratio_from_specific_vol_and_temp (s.specific_volume.getD 0) db P
  let s1 := { s with humidity_ratio := some w }
  let pv := find_p_water_vapor_from_humidity_ratio w P
  let s2 := { s1 with p_vapor := some pv }
  match find_relative_humidity pv db with
  | Except.error f => some (Except.error (f, s2))
  | Except.ok rh =>
    let s3 := { s2 with relative_humidity := some rh }
    match find_dew_point_temperature pv n with
    | none => none
    | some dp =>
      let s4 := { s3 with dew_point_temperature := some dp }
      let s5 := { s4 with specific_heat_capacity := some (find_specific_heat w) }
      let h := find_total_enthalpy db w
      let s6 := { s5 with total_enthalpy := some h }
      match find_wet_bulb_temperature h P n with
      | none => none
      | some wb => some (Except.ok { s6 with wet_bulb_temperature := some wb })

/-- Case 5 handler: wet bulb temperature and humidity ratio known (vapor
pressure and total enthalpy are available from the reductions). -/
def case_5 (P : ℝ) (n : ℕ) (s : PsychrometricProperties) : RunResult :=
  let w := s.humidity_ratio.getD 0
  let db := find_dry_bulb_temperature (s.total_enthalpy.getD 0) w
  let s1 := { s with dry_bulb_temperature := some db }
  let pv := s1.p_vapor.getD 0
  match find_dew_point_temperature pv n with
  | none => none
  | some dp =>
    let s2 := { s1 with dew_point_temperature := some dp }
    match find_relative_humidity pv db with
    | Except.error f => some (Except.error (f, s2))
    | Except.ok rh =>
      let s3 := { s2 with relative_humidity := some rh }
      let s4 := { s3 with specific_volume := some (find_specific_volume w db P) }
      some (Except.ok { s4 with specific_heat_capacity := some (find_specific_heat w) })

/-- Case 6 handler: wet bulb temperature and relative humidity known. -/
def case_6 (P : ℝ) (n : ℕ) (s : PsychrometricProperties) : RunResult :=
  let rh := s.relative_humidity.getD 0
  let h := s.total_enthalpy.getD 0
  match find_dry_bulb_temperature_RH_enthalpy rh h P n with
  | none => none
  | some db =>
    let s1 := { s with dry_bulb_temperature := some db }
    let w := find_humidity_ratio_from_enthalpy_db db h
    let s2 := { s1 with humidity_ratio := some w }
    let pv := find_p_water_vapor_from_humidity_ratio w P
    let s3 := { s2 with p_vapor := some pv }
    let s4 := { s3 with specific_volume := some (find_specific_volume w db P) }
    let s5 := { s4 with specific_heat_capacity := some (find_specific_heat w) }
    match find_dew_point_temperature pv n with
    | none => none
    | some dp => some (Except.ok { s5 with dew_point_temperature := some dp })

/-- Case 7 handler: wet bulb temperature and specific volume known.  Note
that the source calls find_p_water_vapor_from_humidity_ratio without a
pressure argument here, so the default 101325 is used instead of the
supplied total pressure. -/
def case_7 (P : ℝ) (n : ℕ) (s : PsychrometricProperties) : RunResult :=
  let h := s.total_enthalpy.getD 0
  match find_humidity_ratio_from_enthalpy_specific_vol h (s.specific_volume.getD 0) P with
  | Except.error f => some (Except.error (f, s))
  | Except.ok w =>
    let s1 := { s with humidity_ratio := some w }
    let db := find_dry_bulb_temperature h w
    let s2 := { s1 with dry_bulb_temperature := some db }
    let pv := find_p_water_vapor_from_humidity_ratio w 101325
    let s3 := { s2 with p_vapor := some pv }
    match find_dew_point_temperature pv n with
    | none => none
    | some dp =>
      let s4 := { s3 with dew_point_temperature := some dp }
      match find_relative_humidity pv db with
      | Except.error f => some (Except.error (f, s4))
      | Except.ok rh =>
        let s5 := { s4 with relative_humidity := some rh }
        some (Except.ok { s5 with specific_heat_capacity := some (find_specific_heat w) })

/-- Case 8 handler: humidity ratio and relative humidity known. -/
def case_8 (P : ℝ) (n : ℕ) (s : PsychrometricProperties) : RunResult :=
  let w := s.humidity_ratio.getD 0
  let pv := s.p_vapor.getD 0
  match find_dry_bulb_temperature_RH_p_vapor (s.relative_humidity.getD 0) pv n with
  | none => none
  | some db =>
    let s1 := { s with dry_bulb_temperature := some db }
    let h := find_total_enthalpy db w
    let s2 := { s1 with total_enthalpy := some h }
    match find_wet_bulb_temperature h P n with
    | none => none
    | some wb =>
      let s3 := { s2 with wet_bulb_temperature := some wb }
      let s4 := { s3 with specific_heat_capacity := some (find_specific_heat w) }
      match find_dew_point_temperature pv n with
      | none => none
      | some dp =>
        let s5 := { s4 with dew_point_temperature := some dp }
        some (Except.ok { s5 with specific_volume := some (find_specific_volume w db P) })

/-- Case 9 handler: humidity ratio and total enthalpy known. -/
def case_9 (P : ℝ) (n : ℕ) (s : PsychrometricProperties) : RunResult :=
  let w := s.humidity_ratio.getD 0
  let db := find_dry_bulb_temperature (s.total_enthalpy.getD 0) w
  let s1 := { s with dry_bulb_temperature := some db }
  let pv := s1.p_vapor.getD 0
  match find_dew_point_temperature pv n with
  | none => none
  | some dp =>
    let s2 := { s1 with dew_point_temperature := some dp }
    match find_relative_humidity pv db with
    | Except.error f => some (Except.error (f, s2))
    | Except.ok rh =>
      let s3 := { s2 with relative_humidity := some rh }
      let s4 := { s3 with specific_volume := some (find_specific_volume w db P) }
      some (Except.ok { s4 with specific_heat_capacity := some (find_specific_heat w) })

/-- Case 10 handler: humidity ratio and specific volume known. -/
def case_10 (P : ℝ) (n : ℕ) (s : PsychrometricProperties) : RunResult :=
  let w := s.humidity_ratio.getD 0
  let db := find_dry_bulb_temperature_specific_vol_H (s.specific_volume.getD 0) w P
  let s1 := { s with dry_bulb_temperature := some db }
  let h := find_total_enthalpy db w
  let s2 := { s1 with total_enthalpy := some h }
  match find_wet_bulb_temperature h P n with
  | none => none
  | some wb =>
    let s3 := { s2 with wet_bulb_temperature := some wb }
    let pv := s3.p_vapor.getD 0
    match find_relative_humidity pv db with
    | Except.error f => some (Except.error (f, s3))
    | Except.ok rh =>
      let s4 := { s3 with relative_humidity := some rh }
      let s5 := { s4 with specific_heat_capacity := some (find_specific_heat w) }
      match find_dew_point_temperature pv n with
      | none => none
      | some dp => some (Except.ok { s5 with dew_point_temperature := some dp })

/-- Stage 6 of check_validity: vapor pressure against saturation pressure
at the dry bulb temperature. -/
def validity_stage_6 (s : PsychrometricProperties) : Except EngineFailure Unit :=
  match s.p_vapor, s.dry_bulb_temperature with
  | some pv, some db =>
      if pv > find_p_saturation db then Except.error EngineFailure.invalidParams
      else Except.ok ()
  | _, _ => Except.ok ()

/-- Stage 5 of check_validity: humidity ratio against the saturation
humidity ratio (only when dry bulb temperature and total pressure are also
supplied). -/
def validity_stage_5 (s : PsychrometricProperties) : Except EngineFailure Unit :=
  match s.humidity_ratio, s.dry_bulb_temperature, s.total_pressure with
  | some w, some db, some p =>
      if w > find_saturation_humidity_ratio db p then
        Except.error EngineFailure.invalidParams
      else validity_stage_6 s
  | _, _, _ => validity_stage_6 s

/-- Stage 4 of check_validity: relative humidity at most 1. -/
def validity_stage_4 (s : PsychrometricProperties) : Except EngineFailure Unit :=
  match s.relative_humidity with
  | some rh =>
      if rh > 1 then Except.error EngineFailure.invalidParams else validity_stage_5 s
  | none => validity_stage_5 s

/-- Stage 3 of check_validity: dew point at most wet bulb. -/
def validity_stage_3 (s : PsychrometricProperties) : Except EngineFailure Unit :=
  match s.wet_bulb_temperature, s.dew_point_temperature with
  | some wb, some dp =>
      if dp > wb then Except.error EngineFailure.invalidParams else validity_stage_4 s
  | _, _ => validity_stage_4 s

/-- Stage 2 of check_validity: dew point at most dry bulb. -/
def validity_stage_2 (s : PsychrometricProperties) : Except EngineFailure Unit :=
  match s.dry_bulb_temperature, s.dew_point_temperature with
  | some db, some dp =>
      if dp > db then Except.error EngineFailure.invalidParams else validity_stage_3 s
  | _, _ => validity_stage_3 s

/-- The method PsychrometricProperties.check_validity: the six ordering and
range checks, in source order, each raising InvalidParamsException on a
strict violation. -/
def check_validity (s : PsychrometricProperties) : Except EngineFailure Unit :=
  match s.dry_bulb_temperature, s.wet_bulb_temperature with
  | some db, some wb =>
      if wb > db then Except.error EngineFailure.invalidParams else validity_stage_2 s
  | _, _ => validity_stage_2 s

/-- The method PsychrometricProperties.define_point: the determinability
gate, the validity checks, the case reductions and the case dispatch, with
all mutations of `self` threaded explicitly.  An error carries the state of
`self` at the moment the exception was raised. -/
def define_point (n : ℕ) (s : PsychrometricProperties) : RunResult :=
  if check_definable s then
    match check_validity s with
    | Except.error f => some (Except.error (f, s))
    | Except.ok _ =>
      match apply_reductions n (s.total_pressure.getD 0) s with
      | none => none
      | some t =>
        match dispatch_case t with
        | 1 => case_1 (s.total_pressure.getD 0) n t
        | 2 => case_2 (s.total_pressure.getD 0) n t
        | 3 => case_3 (s.total_pressure.getD 0) n t
        | 4 => case_4 (s.total_pressure.getD 0) n t
        | 5 => case_5 (s.total_pressure.getD 0) n t
        | 6 => case_6 (s.total_pressure.getD 0) n t
        | 7 => case_7 (s.total_pressure.getD 0) n t
        | 8 => case_8 (s.total_pressure.getD 0) n t
        | 9 => case_9 (s.total_pressure.getD 0) n t
        | 10 => case_10 (s.total_pressure.getD 0) n t
        | _ => some (Except.ok t)
  else some (Except.error (EngineFailure.pointNotDefined, s))

/-- The observable behaviour of the constructor
`PsychrometricProperties(**kwargs)`: define_point runs on the supplied
fields; a raised exception propagates out of __init__ (the except clause
re-raises PointNotDefinedException), so the caller receives either the
fully processed object or only the exception — never the mutated `self`. -/
def resolve_point (n : ℕ) (s : PsychrometricProperties) :
    Option (Except EngineFailure PsychrometricProperties) :=
  match define_point n s with
  | none => none
  | some (Except.ok t) => some (Except.ok t)
  | some (Except.error (f, _)) => some (Except.error f)

end

/-- A state with no supplied field at all. -/
def empty_props : PsychrometricProperties :=
  ⟨none, none, none, none, none, none, none, none, none, none⟩

/-- The concrete input of claim C4: relative humidity 0.4, specific volume
0.85, total pressure 101325, nothing else. -/
noncomputable def rh_sv_input : PsychrometricProperties :=
  ⟨none, none, none, some 101325, none, some 0.4, none, none, some 0.85, none⟩

/-- A concrete input with total enthalpy, humidity ratio and pressure
supplied, used to witness the claim about case reduction 4a. -/
noncomputable def enthalpy_w_input : PsychrometricProperties :=
  ⟨none, none, none, some 101325, some 0.01, none, some 60, none, none, none⟩

/-- Violation of the first check of check_validity: wet bulb strictly above
dry bulb, both supplied. -/
def viol_wb_above_db (s : PsychrometricProperties) : Prop :=
  ∃ db wb, s.dry_bulb_temperature = some db ∧ s.wet_bulb_temperature = some wb ∧ wb > db

/-- Violation of the second check: dew point strictly above dry bulb. -/
def viol_dp_above_db (s : PsychrometricProperties) : Prop :=
  ∃ db dp, s.dry_bulb_temperature = some db ∧ s.dew_point_temperature = some dp ∧ dp > db

/-- Violation of the third check: dew point strictly above wet bulb. -/
def viol_dp_above_wb (s : PsychrometricProperties) : Prop :=
  ∃ wb dp, s.wet_bulb_temperature = some wb ∧ s.dew_point_temperature = some dp ∧ dp > wb

/-- Violation of the fourth check: relative humidity strictly above 1. -/
def viol_rh_above_one (s : PsychrometricProperties) : Prop :=
  ∃ rh, s.relative_humidity = some rh ∧ rh > 1

/-- Violation of the fifth check: humidity ratio strictly above the
saturation humidity ratio. -/
def viol_w_above_sat (s : PsychrometricProperties) : Prop :=
  ∃ w db p, s.humidity_ratio = some w ∧ s.dry_bulb_temperature = some db ∧
    s.total_pressure = some p ∧ w > find_saturation_humidity_ratio db p

/-- Violation of the sixth check: vapor pressure strictly above the
saturation pressure at the dry bulb temperature. -/
def viol_pv_above_sat (s : PsychrometricProperties) : Prop :=
  ∃ pv db, s.p_vapor = some pv ∧ s.dry_bulb_temperature = some db ∧
    pv > find_p_saturation db

/-- Some supplied value strictly violates one of the six ordering or range
checks of check_validity. -/
def strict_validity_violation (s : PsychrometricProperties) : Prop :=
  viol_wb_above_db s ∨ viol_dp_above_db s ∨ viol_dp_above_wb s ∨
    viol_rh_above_one s ∨ viol_w_above_sat s ∨ viol_pv_above_sat s

/-- The only way a solver loop returns a value is that its final step met
the precision test: there is no other exit from the `while`. -/
def loop_exit_is_convergence (step : ℝ → ℝ) : Option ℝ → Prop
  | none => True
  | some r => |step r - r| ≤ (10 : ℝ) ^ (-5 : ℤ)

theorem solveGo_exit (step : ℝ → ℝ) (n : ℕ) :
    ∀ t0 : ℝ, loop_exit_is_convergence step (solveGo step n t0) := by
  induction n with
  | zero =>
    intro t0
    simp [solveGo, loop_exit_is_convergence]
  | succ m ih =>
    intro t0
    rw [solveGo]
    by_cases hc : |step t0 - t0| > (10 : ℝ) ^ (-5 : ℤ)
    · rw [if_pos hc]
      exact ih (step t0)
    · rw [if_neg hc]
      simpa [loop_exit_is_convergence] using not_lt.mp hc

/-- Claim C5: the three gradient-descent solvers have no bounded-iteration
failure exit.  Whatever fuel is granted, each loop either is still running
(`none`, the unbounded `while` of the source) or has returned a value whose
final step met the precision test; no NumericConvergenceFailure outcome
exists anywhere in the engine — the repository does not even define such an
exception, so the mandated bounded-iteration failure cannot occur. -/
theorem solvers_exit_only_at_convergence (p h rh P : ℝ) (n : ℕ) :
    loop_exit_is_convergence (fun t => t_dew_point_step t p)
      (find_dew_point_temperature p n) ∧
    loop_exit_is_convergence (fun t => t_wet_bulb_step t h P)
      (find_wet_bulb_temperature h P n) ∧
    loop_exit_is_convergence (fun t => t_dry_bulb_step t rh h P)
      (find_dry_bulb_temperature_RH_enthalpy rh h P n) :=
  ⟨solveGo_exit _ n 50, solveGo_exit _ n 50, solveGo_exit _ n 50⟩

/-- Claim C3: resolution is atomic on failure.  Whenever define_point
raises, with whatever partially mutated `self` at that moment, the
constructor propagates only the exception: the caller receives no
PropertySet at all alongside the failure. -/
theorem failed_resolution_returns_only_the_failure (n : ℕ)
    (s t : PsychrometricProperties) (f : EngineFailure)
    (h : define_point n s = some (Except.error (f, t))) :
    resolve_point n s = some (Except.error f) := by
  simp [resolve_point, h]

theorem failed_resolution_witness :
    define_point 0 empty_props =
      some (Except.error (EngineFailure.pointNotDefined, empty_props)) ∧
    resolve_point 0 empty_props = some (Except.error EngineFailure.pointNotDefined) :=
  ⟨rfl, failed_resolution_returns_only_the_failure 0 empty_props empty_props
    EngineFailure.pointNotDefined rfl⟩

/-- Claim C7: in case 8 the dry bulb temperature is obtained by running the
dew point solver at the target `p_vapor * relative_humidity` — the product,
not the quotient — so the equation the solver drives to zero is
`p_sat(T) = RH · p_vapor`.  At any exact solution T of that equation the
relation claimed in the specification, `RH · p_sat(T) = p_vapor`, fails
whenever RH² ≠ 1 and p_vapor ≠ 0; the code contradicts the definition of
relative humidity used by its own find_relative_humidity. -/
theorem case_8_solves_the_product_equation (rh pv T : ℝ) (n : ℕ)
    (hpv : pv ≠ 0) (hrh : rh * rh ≠ 1) (hT : find_p_saturation T = rh * pv) :
    find_dry_bulb_temperature_RH_p_vapor rh pv n =
      find_dew_point_temperature (pv * rh) n ∧
    rh * find_p_saturation T ≠ pv := by
  refine ⟨rfl, ?_⟩
  rw [hT]
  intro hEq
  have h2 : (rh * rh - 1) * pv = 0 := by linear_combination hEq
  rcases mul_eq_zero.mp h2 with h3 | h3
  · exact hrh (by linarith)
  · exact hpv h3

theorem case_8_product_equation_witness :
    (2 * find_p_saturation 0 ≠ 0) ∧ ((1 / 2 : ℝ) * (1 / 2) ≠ 1) ∧
    (find_p_saturation 0 = (1 / 2 : ℝ) * (2 * find_p_saturation 0)) ∧
    (find_dry_bulb_temperature_RH_p_vapor (1 / 2) (2 * find_p_saturation 0) 0 =
        find_dew_point_temperature (2 * find_p_saturation 0 * (1 / 2)) 0 ∧
      (1 / 2 : ℝ) * find_p_saturation 0 ≠ 2 * find_p_saturation 0) := by
  have hpos : 0 < find_p_saturation 0 := by
    have hb : (0 : ℝ) < (0 : ℝ) + 105 := by norm_num
    exact div_pos (Real.exp_pos _) (Real.rpow_pos_of_pos hb _)
  exact ⟨mul_ne_zero two_ne_zero (ne_of_gt hpos), by norm_num, by ring,
    case_8_solves_the_product_equation (1 / 2) (2 * find_p_saturation 0) 0 0
      (mul_ne_zero two_ne_zero (ne_of_gt hpos)) (by norm_num) (by ring)⟩

theorem code_facts_eq_spec_facts (s : PsychrometricProperties) :
    code_independent_facts s = spec_independent_facts s := by
  obtain ⟨db, wb, dp, P, w, rh, h, pv, v, cp⟩ := s
  cases db <;> cases wb <;> cases dp <;> cases w <;> cases rh <;> cases h <;>
    cases pv <;> cases v <;> cases cp <;> rfl

theorem check_definable_eq_true_iff (s : PsychrometricProperties) :
    check_definable s = true ↔
      (s.total_pressure.isSome = true ∧ 2 ≤ spec_independent_facts s) := by
  rw [check_definable, Bool.and_eq_true, decide_eq_true_iff, code_facts_eq_spec_facts]

theorem find_relative_humidity_error (pv T : ℝ) (f : EngineFailure)
    (h : find_relative_humidity pv T = Except.error f) : f = EngineFailure.valueError := by
  unfold find_relative_humidity at h
  split_ifs at h <;> simp_all [eq_comm]

theorem find_humidity_ratio_from_RH_temp_error (rh T P : ℝ) (f : EngineFailure)
    (h : find_humidity_ratio_from_RH_temp rh T P = Except.error f) :
    f = EngineFailure.valueError := by
  unfold find_humidity_ratio_from_RH_temp at h
  split_ifs at h <;> simp_all [eq_comm]

theorem quad_function_error (hv sv P : ℝ) (f : EngineFailure)
    (h : find_humidity_ratio_from_enthalpy_specific_vol hv sv P = Except.error f) :
    f = EngineFailure.valueError := by
  unfold find_humidity_ratio_from_enthalpy_specific_vol at h
  split_ifs at h <;> simp_all [eq_comm]

theorem validity_stage_6_error (s : PsychrometricProperties) (f : EngineFailure)
    (h : validity_stage_6 s = Except.error f) : f = EngineFailure.invalidParams := by
  unfold validity_stage_6 at h
  split at h
  · split_ifs at h <;> simp_all [eq_comm]
  · exact absurd h (by simp)

theorem validity_stage_5_error (s : PsychrometricProperties) (f : EngineFailure)
    (h : validity_stage_5 s = Except.error f) : f = EngineFailure.invalidParams := by
  unfold validity_stage_5 at h
  split at h
  · split_ifs at h
    · simp_all [eq_comm]
    · exact validity_stage_6_error _ _ h
  · exact validity_stage_6_error _ _ h

theorem validity_stage_4_error (s : PsychrometricProperties) (f : EngineFailure)
    (h : validity_stage_4 s = Except.error f) : f = EngineFailure.invalidParams := by
  unfold validity_stage_4 at h
  split at h
  · split_ifs at h
    · simp_all [eq_comm]
    · exact validity_stage_5_error _ _ h
  · exact validity_stage_5_error _ _ h

theorem validity_stage_3_error (s : PsychrometricProperties) (f : EngineFailure)
    (h : validity_stage_3 s = Except.error f) : f = EngineFailure.invalidParams := by
  unfold validity_stage_3 at h
  split at h
  · split_ifs at h
    · simp_all [eq_comm]
    · exact validity_stage_4_error _ _ h
  · exact validity_stage_4_error _ _ h

theorem validity_stage_2_error (s : PsychrometricProperties) (f : EngineFailure)
    (h : validity_stage_2 s = Except.error f) : f = EngineFailure.invalidParams := by
  unfold validity_stage_2 at h
  split at h
  · split_ifs at h
    · simp_all [eq_comm]
    · exact validity_stage_3_error _ _ h
  · exact validity_stage_3_error _ _ h

theorem check_validity_error (s : PsychrometricProperties) (f : EngineFailure)
    (h : check_validity s = Except.error f) : f = EngineFailure.invalidParams := by
  unfold check_validity at h
  split at h
  · split_ifs at h
    · simp_all [eq_comm]
    · exact validity_stage_2_error _ _ h
  · exact validity_stage_2_error _ _ h

theorem case_1_error (P : ℝ) (n : ℕ) (s t : PsychrometricProperties) (f : EngineFailure)
    (h : case_1 P n s = some (Except.error (f, t))) : f = EngineFailure.valueError := by
  simp only [case_1] at h
  split at h
  · rename_i f1 heq
    simp only [Option.some.injEq, Except.error.injEq, Prod.mk.injEq] at h
    exact h.1.symm.trans (find_relative_humidity_error _ _ _ heq)
  · split at h
    · exact absurd h (by simp)
    · exact absurd h (by simp)

theorem case_2_error (P : ℝ) (n : ℕ) (s t : PsychrometricProperties) (f : EngineFailure)
    (h : case_2 P n s = some (Except.error (f, t))) : f = EngineFailure.valueError := by
  simp only [case_2] at h
  split at h
  · exact absurd h (by simp)
  · split at h
    · exact absurd h (by simp)
    · split at h
      · rename_i f1 heq
        simp only [Option.some.injEq, Except.error.injEq, Prod.mk.injEq] at h
        exact h.1.symm.trans (find_relative_humidity_error _ _ _ heq)
      · exact absurd h (by simp)

theorem case_3_error (P : ℝ) (n : ℕ) (s t : PsychrometricProperties) (f : EngineFailure)
    (h : case_3 P n s = some (Except.error (f, t))) : f = EngineFailure.valueError := by
  simp only [case_3] at h
  split at h
  · rename_i f1 heq
    simp only [Option.some.injEq, Except.error.injEq, Prod.mk.injEq] at h
    exact h.1.symm.trans (find_humidity_ratio_from_RH_temp_error _ _ _ _ heq)
  · split at h
    · exact absurd h (by simp)
    · split at h
      · exact absurd h (by simp)
      · exact absurd h (by simp)

theorem case_4_error (P : ℝ) (n : ℕ) (s t : PsychrometricProperties) (f : EngineFailure)
    (h : case_4 P n s = some (Except.error (f, t))) : f = EngineFailure.valueError := by
  simp only [case_4] at h
  split at h
  · rename_i f1 heq
    simp only [Option.some.injEq, Except.error.injEq, Prod.mk.injEq] at h
    exact h.1.symm.trans (find_relative_humidity_error _ _ _ heq)
  · split at h
    · exact absurd h (by simp)
    · split at h
      · exact absurd h (by simp)
      · exact absurd h (by simp)

theorem case_5_error (P : ℝ) (n : ℕ) (s t : PsychrometricProperties) (f : EngineFailure)
    (h : case_5 P n s = some (Except.error (f, t))) : f = EngineFailure.valueError := by
  simp only [case_5] at h
  split at h
  · exact absurd h (by simp)
  · split at h
    · rename_i f1 heq
      simp only [Option.some.injEq, Except.error.injEq, Prod.mk.injEq] at h
      exact h.1.symm.trans (find_relative_humidity_error _ _ _ heq)
    · exact absurd h (by simp)

theorem case_6_error (P : ℝ) (n : ℕ) (s t : PsychrometricProperties) (f : EngineFailure)
    (h : case_6 P n s = some (Except.error (f, t))) : f = EngineFailure.valueError := by
  simp only [case_6] at h
  split at h
  · exact absurd h (by simp)
  · split at h
    · exact absurd h (by simp)
    · exact absurd h (by simp)

theorem case_7_error (P : ℝ) (n : ℕ) (s t : PsychrometricProperties) (f : EngineFailure)
    (h : case_7 P n s = some (Except.error (f, t))) : f = EngineFailure.valueError := by
  simp only [case_7] at h
  split at h
  · rename_i f1 heq
    simp only [Option.some.injEq, Except.error.injEq, Prod.mk.injEq] at h
    exact h.1.symm.trans (quad_function_error _ _ _ _ heq)
  · split at h
    · exact absurd h (by simp)
    · split at h
      · rename_i f1 heq
        simp only [Option.some.injEq, Except.error.injEq, Prod.mk.injEq] at h
        exact h.1.symm.trans (find_relative_humidity_error _ _ _ heq)
      · exact absurd h (by simp)

theorem case_8_error (P : ℝ) (n : ℕ) (s t : PsychrometricProperties) (f : EngineFailure)
    (h : case_8 P n s = some (Except.error (f, t))) : f = EngineFailure.valueError := by
  simp only [case_8] at h
  split at h
  · exact absurd h (by simp)
  · split at h
    · exact absurd h (by simp)
    · split at h
      · exact absurd h (by simp)
      · exact absurd h (by simp)

theorem case_9_error (P : ℝ) (n : ℕ) (s t : PsychrometricProperties) (f : EngineFailure)
    (h : case_9 P n s = some (Except.error (f, t))) : f = EngineFailure.valueError := by
  simp only [case_9] at h
  split at h
  · exact absurd h (by simp)
  · split at h
    · rename_i f1 heq
      simp only [Option.some.injEq, Except.error.injEq, Prod.mk.injEq] at h
      exact h.1.symm.trans (find_relative_humidity_error _ _ _ heq)
    · exact absurd h (by simp)

theorem case_10_error (P : ℝ) (n : ℕ) (s t : PsychrometricProperties) (f : EngineFailure)
    (h : case_10 P n s = some (Except.error (f, t))) : f = EngineFailure.valueError := by
  simp only [case_10] at h
  split at h
  · exact absurd h (by simp)
  · split at h
    · rename_i f1 heq
      simp only [Option.some.injEq, Except.error.injEq, Prod.mk.injEq] at h
      exact h.1.symm.trans (find_relative_humidity_error _ _ _ heq)
    · split at h
      · exact absurd h (by simp)
      · exact absurd h (by simp)

theorem define_point_definable_no_pnd (n : ℕ) (s : PsychrometricProperties)
    (hdef : check_definable s = true) (t : PsychrometricProperties) (f : EngineFailure)
    (h : define_point n s = some (Except.error (f, t))) :
    f ≠ EngineFailure.pointNotDefined := by
  intro hf
  subst hf
  unfold define_point at h
  rw [if_pos hdef] at h
  split at h
  · rename_i fv heq
    simp only [Option.some.injEq, Except.error.injEq, Prod.mk.injEq] at h
    exact absurd (h.1.symm.trans (check_validity_error _ _ heq)) (by simp)
  · split at h
    · exact absurd h (by simp)
    · split at h
      · exact absurd (case_1_error _ _ _ _ _ h) (by simp)
      · exact absurd (case_2_error _ _ _ _ _ h) (by simp)
      · exact absurd (case_3_error _ _ _ _ _ h) (by simp)
      · exact absurd (case_4_error _ _ _ _ _ h) (by simp)
      · exact absurd (case_5_error _ _ _ _ _ h) (by simp)
      · exact absurd (case_6_error _ _ _ _ _ h) (by simp)
      · exact absurd (case_7_error _ _ _ _ _ h) (by simp)
      · exact absurd (case_8_error _ _ _ _ _ h) (by simp)
      · exact absurd (case_9_error _ _ _ _ _ h) (by simp)
      · exact absurd (case_10_error _ _ _ _ _ h) (by simp)
      · exact absurd h (by simp)

/-- Claim C1: construction fails with PointNotDefinedException (the
specification's InsufficientData) — before any property is computed, with
`self` still exactly the supplied fields — if and only if total pressure is
absent or the number of distinct independent facts among the nine supplied
properties is below 2, counting the equivalence group {humidity_ratio,
p_vapor, dew_point_temperature, specific_heat_capacity} once and a
supplied {total_enthalpy, wet_bulb_temperature} pair once. -/
theorem insufficient_data_iff_underdetermined (n : ℕ) (s : PsychrometricProperties) :
    (define_point n s =
        some (Except.error (EngineFailure.pointNotDefined, s)) ↔
      ¬(s.total_pressure.isSome = true ∧ 2 ≤ spec_independent_facts s)) ∧
    (resolve_point n s = some (Except.error EngineFailure.pointNotDefined) ↔
      ¬(s.total_pressure.isSome = true ∧ 2 ≤ spec_independent_facts s)) := by
  by_cases hdef : check_definable s = true
  · have hrhs := (check_definable_eq_true_iff s).mp hdef
    constructor
    · constructor
      · intro h
        exact absurd rfl (define_point_definable_no_pnd n s hdef s _ h)
      · intro hcon
        exact absurd hrhs hcon
    · constructor
      · intro h
        unfold resolve_point at h
        split at h
        · exact absurd h (by simp)
        · exact absurd h (by simp)
        · rename_i f t heq
          simp only [Option.some.injEq, Except.error.injEq] at h
          exact absurd h (define_point_definable_no_pnd n s hdef t f heq)
      · intro hcon
        exact absurd hrhs hcon
  · have hLHS : define_point n s =
        some (Except.error (EngineFailure.pointNotDefined, s)) := by
      unfold define_point
      rw [if_neg hdef]
    have hrhs' : ¬(s.total_pressure.isSome = true ∧ 2 ≤ spec_independent_facts s) :=
      fun hc => hdef ((check_definable_eq_true_iff s).mpr hc)
    refine ⟨⟨fun _ => hrhs', fun _ => hLHS⟩, ⟨fun _ => hrhs', fun _ => ?_⟩⟩
    simp [resolve_point, hLHS]

/-- Claim C4: on the input RH = 0.4, specific volume = 0.85 m³/kg,
P = 101325 Pa the reduced known pair is case 11, whose handler is `pass`:
resolution does not fail with any exception — it returns successfully an
under-filled PropertySet in which dry bulb, wet bulb, humidity ratio,
enthalpy, vapor pressure, dew point and specific heat are all still
missing, contradicting the claimed UnsupportedCombination failure. -/
theorem case_11_returns_underfilled_set :
    resolve_point 0 rh_sv_input = some (Except.ok rh_sv_input) ∧
    rh_sv_input.dry_bulb_temperature = none ∧
    rh_sv_input.wet_bulb_temperature = none ∧
    rh_sv_input.humidity_ratio = none ∧
    rh_sv_input.total_enthalpy = none ∧
    rh_sv_input.p_vapor = none ∧
    rh_sv_input.dew_point_temperature = none ∧
    rh_sv_input.specific_heat_capacity = none := by
  have hdef : check_definable rh_sv_input = true := rfl
  have hval : check_validity rh_sv_input = Except.ok () := by
    simp only [check_validity, validity_stage_2, validity_stage_3, validity_stage_4,
      validity_stage_5, validity_stage_6, rh_sv_input]
    rw [if_neg (by norm_num : ¬((0.4 : ℝ) > 1))]
  have hdp : define_point 0 rh_sv_input = some (Except.ok rh_sv_input) := by
    unfold define_point
    rw [if_pos hdef, hval]
    rfl
  refine ⟨?_, rfl, rfl, rfl, rfl, rfl, rfl, rfl⟩
  unfold resolve_point
  rw [hdp]

theorem reduction_1_fields (s : PsychrometricProperties) :
    (reduction_1 s).dry_bulb_temperature = s.dry_bulb_temperature ∧
    (reduction_1 s).wet_bulb_temperature = s.wet_bulb_temperature ∧
    (reduction_1 s).total_enthalpy = s.total_enthalpy ∧
    (s.humidity_ratio.isSome = true → (reduction_1 s).humidity_ratio.isSome = true) := by
  unfold reduction_1
  split <;> simp

theorem reduction_2_fields (s : PsychrometricProperties) :
    (reduction_2 s).dry_bulb_temperature = s.dry_bulb_temperature ∧
    (reduction_2 s).wet_bulb_temperature = s.wet_bulb_temperature ∧
    (reduction_2 s).total_enthalpy = s.total_enthalpy ∧
    (reduction_2 s).humidity_ratio = s.humidity_ratio := by
  unfold reduction_2
  split <;> simp

theorem reduction_3_fields (P : ℝ) (s : PsychrometricProperties) :
    (reduction_3 P s).dry_bulb_temperature = s.dry_bulb_temperature ∧
    (reduction_3 P s).wet_bulb_temperature = s.wet_bulb_temperature ∧
    (reduction_3 P s).total_enthalpy = s.total_enthalpy ∧
    (s.humidity_ratio.isSome = true → (reduction_3 P s).humidity_ratio.isSome = true) := by
  unfold reduction_3
  split
  · simp
  · split <;> simp

theorem reduction_4_shape (n : ℕ) (P : ℝ) (r s' : PsychrometricProperties)
    (h : reduction_4 n P r = some s') :
    s'.dry_bulb_temperature = r.dry_bulb_temperature ∧
    s'.humidity_ratio = r.humidity_ratio ∧
    (r.total_enthalpy.isSome = true → s'.wet_bulb_temperature.isSome = true) ∧
    (s'.total_enthalpy.isSome = true → s'.wet_bulb_temperature.isSome = true) := by
  unfold reduction_4 at h
  split at h
  · rename_i hv hH
    split at h
    · rename_i wb hwb
      simp only [Option.some.injEq] at h
      subst h
      simp
    · exact absurd h (by simp)
  · rename_i hH
    split at h
    · rename_i wb hwb
      simp only [Option.some.injEq] at h
      subst h
      simp [hwb]
    · rename_i hwb
      simp only [Option.some.injEq] at h
      subst h
      simp [hH, hwb]

theorem apply_reductions_shape (n : ℕ) (P : ℝ) (s s' : PsychrometricProperties)
    (h : apply_reductions n P s = some s') :
    s'.dry_bulb_temperature = s.dry_bulb_temperature ∧
    (s.humidity_ratio.isSome = true → s'.humidity_ratio.isSome = true) ∧
    (s.total_enthalpy.isSome = true → s'.wet_bulb_temperature.isSome = true) ∧
    (s'.total_enthalpy.isSome = true → s'.wet_bulb_temperature.isSome = true) := by
  unfold apply_reductions at h
  obtain ⟨h1db, h1wb, h1H, h1W⟩ := reduction_1_fields s
  obtain ⟨h2db, h2wb, h2H, h2W⟩ := reduction_2_fields (reduction_1 s)
  obtain ⟨h3db, h3wb, h3H, h3W⟩ := reduction_3_fields P (reduction_2 (reduction_1 s))
  obtain ⟨h4db, h4W, h4wb, h4wb'⟩ := reduction_4_shape n P _ _ h
  refine ⟨by rw [h4db, h3db, h2db, h1db], ?_, ?_, h4wb'⟩
  · intro hW
    have := h3W (by rw [h2W]; exact h1W hW)
    rw [h4W]
    exact this
  · intro hH
    exact h4wb (by rw [h3H, h2H, h1H]; exact hH)

theorem dispatch_case_nine (s : PsychrometricProperties) (h : dispatch_case s = 9) :
    s.total_enthalpy.isSome = true ∧ s.wet_bulb_temperature.isSome = false := by
  obtain ⟨db, wb, dp, P, w, rh, hh, pv, v, cp⟩ := s
  cases db <;> cases wb <;> cases w <;> cases rh <;> cases hh <;> cases v <;>
    simp_all [dispatch_case]

/-- Claim C10: whenever total enthalpy is supplied, case reduction 4a
assigns wet bulb temperature before the dispatch (provided its solver
returns), so an input with humidity ratio and enthalpy known and no dry
bulb is dispatched to case 5 (wet bulb + humidity ratio); and on every
reduced state whatsoever the dedicated case 9 branch is unreachable. -/
theorem enthalpy_reduction_preempts_case_9 (n : ℕ) (P : ℝ) (s : PsychrometricProperties)
    (hH : s.total_enthalpy.isSome = true)
    (hW : s.humidity_ratio.isSome = true)
    (hdb : s.dry_bulb_temperature = none) :
    (match apply_reductions n P s with
     | none => True
     | some s' => s'.wet_bulb_temperature.isSome = true ∧ dispatch_case s' = 5) ∧
    (∀ s2 s2' : PsychrometricProperties, apply_reductions n P s2 = some s2' →
      dispatch_case s2' ≠ 9) := by
  constructor
  · rcases hred : apply_reductions n P s with - | s'
    · trivial
    · obtain ⟨hdb', hW', hwb', -⟩ := apply_reductions_shape n P s s' hred
      have hwb2 := hwb' hH
      have hW2 := hW' hW
      refine ⟨hwb2, ?_⟩
      rw [dispatch_case, hdb', hdb]
      simp [hwb2, hW2]
  · intro s2 s2' hr h9
    obtain ⟨-, -, -, hwb'⟩ := apply_reductions_shape n P s2 s2' hr
    obtain ⟨hH9, hwb9⟩ := dispatch_case_nine s2' h9
    rw [hwb' hH9] at hwb9
    exact absurd hwb9 (by simp)

theorem enthalpy_reduction_witness :
    enthalpy_w_input.total_enthalpy.isSome = true ∧
    enthalpy_w_input.humidity_ratio.isSome = true ∧
    enthalpy_w_input.dry_bulb_temperature = none ∧
    ((match apply_reductions 0 101325 enthalpy_w_input with
      | none => True
      | some s' => s'.wet_bulb_temperature.isSome = true ∧ dispatch_case s' = 5) ∧
     (∀ s2 s2' : PsychrometricProperties, apply_reductions 0 101325 s2 = some s2' →
       dispatch_case s2' ≠ 9)) :=
  ⟨rfl, rfl, rfl, enthalpy_reduction_preempts_case_9 0 101325 enthalpy_w_input rfl rfl rfl⟩

theorem validity_stage_6_ok_iff (s : PsychrometricProperties) :
    validity_stage_6 s = Except.ok () ↔ ¬ viol_pv_above_sat s := by
  unfold validity_stage_6 viol_pv_above_sat
  rcases hpv : s.p_vapor with - | pv
  · simp
  · rcases hdb : s.dry_bulb_temperature with - | db
    · simp
    · dsimp only
      split_ifs with hc <;> simp [hc]

theorem validity_stage_5_ok_iff (s : PsychrometricProperties) :
    validity_stage_5 s = Except.ok () ↔
      (¬ viol_w_above_sat s ∧ validity_stage_6 s = Except.ok ()) := by
  unfold validity_stage_5 viol_w_above_sat
  rcases hw : s.humidity_ratio with - | w
  · simp
  · rcases hdb : s.dry_bulb_temperature with - | db
    · simp
    · rcases hp : s.total_pressure with - | p
      · simp
      · dsimp only
        split_ifs with hc <;> simp [hc]

theorem validity_stage_4_ok_iff (s : PsychrometricProperties) :
    validity_stage_4 s = Except.ok () ↔
      (¬ viol_rh_above_one s ∧ validity_stage_5 s = Except.ok ()) := by
  unfold validity_stage_4 viol_rh_above_one
  rcases hrh : s.relative_humidity with - | rh
  · simp
  · dsimp only
    split_ifs with hc <;> simp [hc]

theorem validity_stage_3_ok_iff (s : PsychrometricProperties) :
    validity_stage_3 s = Except.ok () ↔
      (¬ viol_dp_above_wb s ∧ validity_stage_4 s = Except.ok ()) := by
  unfold validity_stage_3 viol_dp_above_wb
  rcases hwb : s.wet_bulb_temperature with - | wb
  · simp
  · rcases hdp : s.dew_point_temperature with - | dp
    · simp
    · dsimp only
      split_ifs with hc <;> simp [hc]

theorem validity_stage_2_ok_iff (s : PsychrometricProperties) :
    validity_stage_2 s = Except.ok () ↔
      (¬ viol_dp_above_db s ∧ validity_stage_3 s = Except.ok ()) := by
  unfold validity_stage_2 viol_dp_above_db
  rcases hdb : s.dry_bulb_temperature with - | db
  · simp
  · rcases hdp : s.dew_point_temperature with - | dp
    · simp
    · dsimp only
      split_ifs with hc <;> simp [hc]

theorem check_validity_ok_iff_first (s : PsychrometricProperties) :
    check_validity s = Except.ok () ↔
      (¬ viol_wb_above_db s ∧ validity_stage_2 s = Except.ok ()) := by
  unfold check_validity viol_wb_above_db
  rcases hdb : s.dry_bulb_temperature with - | db
  · simp
  · rcases hwb : s.wet_bulb_temperature with - | wb
    · simp
    · dsimp only
      split_ifs with hc <;> simp [hc]

theorem check_validity_ok_iff_no_violation (s : PsychrometricProperties) :
    check_validity s = Except.ok () ↔ ¬ strict_validity_violation s := by
  rw [check_validity_ok_iff_first, validity_stage_2_ok_iff, validity_stage_3_ok_iff,
    validity_stage_4_ok_iff, validity_stage_5_ok_iff, validity_stage_6_ok_iff]
  unfold strict_validity_violation
  tauto

/-- Claim C6: check_validity raises InvalidParamsException exactly when
some supplied pair or value strictly violates one of the six ordering or
range checks (wet bulb above dry bulb, dew point above dry bulb, dew point
above wet bulb, relative humidity above 1, humidity ratio above the
saturation humidity ratio, vapor pressure above the saturation pressure);
every bound is inclusive — an input lying exactly on a bound, such as
relative humidity = 1 or p_vapor = p_sat(dry bulb), passes validation. -/
theorem validator_raises_iff_strict_violation (s : PsychrometricProperties) :
    (check_validity s = Except.error EngineFailure.invalidParams ↔
      strict_validity_violation s) ∧
    (check_validity s = Except.ok () ↔ ¬ strict_validity_violation s) := by
  have hok := check_validity_ok_iff_no_violation s
  refine ⟨⟨?_, ?_⟩, hok⟩
  · intro h
    by_contra hv
    have h2 := hok.mpr hv
    rw [h] at h2
    exact absurd h2 (by simp)
  · intro hv
    rcases hr : check_validity s with f | u
    · rw [check_validity_error s f hr]
    · cases u
      exact absurd hv (hok.mp hr)

theorem quad_sol1_is_root (hv sv P : ℝ) (hD : 0 ≤ quad_disc hv sv P) :
    quad_A * quad_sol1 hv sv P ^ 2 + quad_B hv P sv * quad_sol1 hv sv P +
      quad_C hv P sv = 0 := by
  have hA : quad_A ≠ 0 := by norm_num [quad_A]
  have hs : Real.sqrt (quad_disc hv sv P) ^ 2 = quad_disc hv sv P := Real.sq_sqrt hD
  have expand : quad_A * quad_sol1 hv sv P ^ 2 + quad_B hv P sv * quad_sol1 hv sv P +
      quad_C hv P sv =
      (Real.sqrt (quad_disc hv sv P) ^ 2 -
        (quad_B hv P sv ^ 2 - 4 * quad_A * quad_C hv P sv)) / (4 * quad_A) := by
    unfold quad_sol1
    field_simp
    ring_nf
    rw [Real.sq_sqrt hD]
  rw [expand, hs]
  unfold quad_disc
  simp

theorem quad_sol2_is_root (hv sv P : ℝ) (hD : 0 ≤ quad_disc hv sv P) :
    quad_A * quad_sol2 hv sv P ^ 2 + quad_B hv P sv * quad_sol2 hv sv P +
      quad_C hv P sv = 0 := by
  have hA : quad_A ≠ 0 := by norm_num [quad_A]
  have hs : Real.sqrt (quad_disc hv sv P) ^ 2 = quad_disc hv sv P := Real.sq_sqrt hD
  have expand : quad_A * quad_sol2 hv sv P ^ 2 + quad_B hv P sv * quad_sol2 hv sv P +
      quad_C hv P sv =
      (Real.sqrt (quad_disc hv sv P) ^ 2 -
        (quad_B hv P sv ^ 2 - 4 * quad_A * quad_C hv P sv)) / (4 * quad_A) := by
    unfold quad_sol2
    field_simp
    ring_nf
    rw [Real.sq_sqrt hD]
  rw [expand, hs]
  unfold quad_disc
  simp

/-- Claim C8 (amended): the case-7 quadratic helper returns W exactly when
the discriminant is nonnegative and W is the computed root that is
positive while the other computed root is strictly negative; whenever no
real root exists, both roots are positive, neither is positive, or a root
is zero, it fails with ValueError and returns no value.  (The claim as
frozen also promises the positive root when the other root is exactly
zero; the counterexample shows the code rejects that boundary case.) -/
theorem quadratic_root_selection (hv sv P W : ℝ) :
    find_humidity_ratio_from_enthalpy_specific_vol hv sv P = Except.ok W ↔
      (0 ≤ quad_disc hv sv P ∧ 0 < W ∧
        quad_A * W ^ 2 + quad_B hv P sv * W + quad_C hv P sv = 0 ∧
        ((quad_sol2 hv sv P < 0 ∧ W = quad_sol1 hv sv P) ∨
         (quad_sol1 hv sv P < 0 ∧ W = quad_sol2 hv sv P))) := by
  constructor
  · intro h
    unfold find_humidity_ratio_from_enthalpy_specific_vol at h
    split_ifs at h with h1 h2 h3
    · simp only [Except.ok.injEq] at h
      subst h
      have hD : 0 ≤ quad_disc hv sv P := not_lt.mp h1
      exact ⟨hD, h2.2, quad_sol1_is_root hv sv P hD, Or.inl ⟨h2.1, rfl⟩⟩
    · simp only [Except.ok.injEq] at h
      subst h
      have hD : 0 ≤ quad_disc hv sv P := not_lt.mp h1
      exact ⟨hD, h3.2, quad_sol2_is_root hv sv P hD, Or.inr ⟨h3.1, rfl⟩⟩
  · rintro ⟨hD, hW, hroot, ⟨hs2, hw1⟩ | ⟨hs1, hw2⟩⟩
    · subst hw1
      unfold find_humidity_ratio_from_enthalpy_specific_vol
      rw [if_neg (not_lt.mpr hD), if_pos ⟨hs2, hW⟩]
    · subst hw2
      unfold find_humidity_ratio_from_enthalpy_specific_vol
      rw [if_neg (not_lt.mpr hD),
        if_neg (fun hcon => absurd hcon.2 (not_lt.mpr hs1.le)),
        if_pos ⟨hs1, hW⟩]

/-- Claim C8 counterexample: at enthalpy −10000, specific volume
−558345641/201 and pressure 1 the quadratic has the roots 0 and −B/A with
−B/A > 0 — exactly one positive root — yet the strict comparisons of the
root selection reject the pair and the helper raises ValueError instead of
returning that positive root. -/
theorem quadratic_zero_root_rejected :
    (∃! W : ℝ, 0 < W ∧
      quad_A * W ^ 2 + quad_B (-10000) 1 (-558345641 / 201) * W +
        quad_C (-10000) 1 (-558345641 / 201) = 0) ∧
    find_humidity_ratio_from_enthalpy_specific_vol (-10000) (-558345641 / 201) 1 =
      Except.error EngineFailure.valueError := by
  have hC : quad_C (-10000) 1 (-558345641 / 201) = 0 := by norm_num [quad_C]
  have hB : 0 < quad_B (-10000) 1 (-558345641 / 201) := by norm_num [quad_B]
  have hA : quad_A < 0 := by norm_num [quad_A]
  have hAne : quad_A ≠ 0 := ne_of_lt hA
  constructor
  · refine ⟨-(quad_B (-10000) 1 (-558345641 / 201)) / quad_A, ⟨?_, ?_⟩, ?_⟩
    · exact div_pos_of_neg_of_neg (by linarith) hA
    · rw [hC]
      field_simp
      ring
    · rintro y ⟨hy, hroot⟩
      rw [hC, add_zero] at hroot
      have hfact : y * (quad_A * y + quad_B (-10000) 1 (-558345641 / 201)) = 0 := by
        linear_combination hroot
      rcases mul_eq_zero.mp hfact with h0 | h0
      · exact absurd h0 (ne_of_gt hy)
      · field_simp
        linarith
  · have hDisc : quad_disc (-10000) (-558345641 / 201) 1 =
        quad_B (-10000) 1 (-558345641 / 201) ^ 2 := by
      unfold quad_disc
      rw [hC]
      ring
    have hsqrt : Real.sqrt (quad_disc (-10000) (-558345641 / 201) 1) =
        quad_B (-10000) 1 (-558345641 / 201) := by
      rw [hDisc]
      exact Real.sqrt_sq hB.le
    have hs1 : quad_sol1 (-10000) (-558345641 / 201) 1 = 0 := by
      unfold quad_sol1
      rw [hsqrt, neg_add_cancel, zero_div]
    have hs2 : 0 < quad_sol2 (-10000) (-558345641 / 201) 1 := by
      unfold quad_sol2
      rw [hsqrt]
      exact div_pos_of_neg_of_neg (by linarith) (by linarith)
    unfold find_humidity_ratio_from_enthalpy_specific_vol
    rw [if_neg (by rw [hDisc]; exact not_lt.mpr (sq_nonneg _)),
      if_neg (fun hcon => absurd hcon.1 (not_lt.mpr hs2.le)),
      if_neg (fun hcon => absurd (hs1 ▸ hcon.1) (lt_irrefl 0))]

theorem find_p_saturation_exp_form (T : ℝ) (hT : (0 : ℝ) < T + 105) :
    find_p_saturation T =
      Real.exp (34.494 - 4924.99 / (T + 237.1) - Real.log (T + 105) * 1.57) := by
  rw [find_p_saturation, Real.rpow_def_of_pos hT, ← Real.exp_sub]

/-- Claim C9: the saturation vapor pressure correlation
`exp(34.494 − 4924.99/(T+237.1)) / (T+105)^1.57` is strictly increasing on
the supported range −10 °C … 70 °C. -/
theorem p_saturation_strict_mono (T1 T2 : ℝ)
    (h1 : -10 ≤ T1) (h12 : T1 < T2) (h2 : T2 ≤ 70) :
    find_p_saturation T1 < find_p_saturation T2 := by
  have hp1 : (0 : ℝ) < T1 + 105 := by linarith
  have hp2 : (0 : ℝ) < T2 + 105 := by linarith
  have hq1 : (0 : ℝ) < T1 + 237.1 := by linarith
  have hq2 : (0 : ℝ) < T2 + 237.1 := by linarith
  rw [find_p_saturation_exp_form T1 hp1, find_p_saturation_exp_form T2 hp2]
  apply Real.exp_lt_exp.mpr
  have hlog : Real.log (T2 + 105) - Real.log (T1 + 105) ≤ (T2 - T1) / (T1 + 105) := by
    have hx : (0 : ℝ) < (T2 + 105) / (T1 + 105) := div_pos hp2 hp1
    have hlsub := Real.log_le_sub_one_of_pos hx
    rw [Real.log_div (ne_of_gt hp2) (ne_of_gt hp1)] at hlsub
    have heq : (T2 + 105) / (T1 + 105) - 1 = (T2 - T1) / (T1 + 105) := by
      field_simp
    linarith
  have hinv : 4924.99 / (T1 + 237.1) - 4924.99 / (T2 + 237.1) =
      4924.99 * (T2 - T1) / ((T1 + 237.1) * (T2 + 237.1)) := by
    field_simp
    ring
  have hkey : 1.57 * ((T2 - T1) / (T1 + 105)) <
      4924.99 * (T2 - T1) / ((T1 + 237.1) * (T2 + 237.1)) := by
    have e1 : 1.57 * ((T2 - T1) / (T1 + 105)) = 1.57 * (T2 - T1) / (T1 + 105) := by
      ring
    rw [e1, div_lt_div_iff₀ hp1 (mul_pos hq1 hq2)]
    have hd : (0 : ℝ) < T2 - T1 := sub_pos.mpr h12
    have hQ : (T1 + 237.1) * (T2 + 237.1) ≤ 307.1 * 307.1 :=
      mul_le_mul (by linarith) (by linarith) hq2.le (by norm_num)
    have hA := mul_le_mul_of_nonneg_left hQ
      (by positivity : (0 : ℝ) ≤ 1.57 * (T2 - T1))
    have hB := mul_le_mul_of_nonneg_left (by linarith : (95 : ℝ) ≤ T1 + 105)
      (by positivity : (0 : ℝ) ≤ 4924.99 * (T2 - T1))
    nlinarith [hA, hB, hd]
  have hmul := mul_le_mul_of_nonneg_left hlog (by norm_num : (0 : ℝ) ≤ 1.57)
  have hgoal : Real.log (T2 + 105) * 1.57 - Real.log (T1 + 105) * 1.57 <
      4924.99 / (T1 + 237.1) - 4924.99 / (T2 + 237.1) := by
    rw [hinv]
    calc Real.log (T2 + 105) * 1.57 - Real.log (T1 + 105) * 1.57
        = 1.57 * (Real.log (T2 + 105) - Real.log (T1 + 105)) := by ring
      _ ≤ 1.57 * ((T2 - T1) / (T1 + 105)) := hmul
      _ < 4924.99 * (T2 - T1) / ((T1 + 237.1) * (T2 + 237.1)) := hkey
  linarith

theorem p_saturation_strict_mono_witness :
    (-10 : ℝ) ≤ 0 ∧ (0 : ℝ) < 1 ∧ (1 : ℝ) ≤ 70 ∧
      find_p_saturation 0 < find_p_saturation 1 :=
  ⟨by norm_num, by norm_num, by norm_num,
    p_saturation_strict_mono 0 1 (by norm_num) (by norm_num) (by norm_num)⟩


